import Mathlib

/-!
Verification development for the telegram payment bot core:
the `WrappedList` container (`telegram_payment_bot/utils/wrapped_list.py`),
the bulk member-eviction loop (`RemoveNoPaymentCmd._ExecuteCommand` in
`telegram_payment_bot/command/commands.py`), the periodic payments-check
tick (`PaymentsPeriodicChecker.__PaymentsCheckTask` in
`telegram_payment_bot/payments_periodic_checker.py`), and the payments
check scheduler operations consumed by the task commands.

Python state is embedded by explicit state passing; Python exceptions
become `Except` results; the abstract kicker primitive (an external
capability of the messaging platform) is a function parameter.
-/

/-- Embedding of `WrappedList` (`utils/wrapped_list.py`): a class wrapping a
Python list `list_elements`. -/
structure WrappedList (α : Type) where
  list_elements : List α
deriving DecidableEq, Repr

namespace WrappedList

/-- `AddSingle`: `self.list_elements.append(element)` — append at the end. -/
def AddSingle (w : WrappedList α) (element : α) : WrappedList α :=
  ⟨w.list_elements ++ [element]⟩

/-- `GetList`: `return self.list_elements`. -/
def GetList (w : WrappedList α) : List α :=
  w.list_elements

/-- The argument type of `AddMultiple`: `Union[List[Any], WrappedList]`,
discriminated in the source by `isinstance(elements, WrappedList)`. -/
inductive ListOrWrapped (α : Type) where
  | plain (l : List α)
  | wrapped (w : WrappedList α)
deriving DecidableEq, Repr

/-- `AddMultiple`: if the argument is a `WrappedList`, extend with
`elements.GetList()`, otherwise extend with the plain list `elements`. -/
def AddMultiple (w : WrappedList α) (elements : ListOrWrapped α) : WrappedList α :=
  match elements with
  | .wrapped e => ⟨w.list_elements ++ e.GetList⟩
  | .plain l => ⟨w.list_elements ++ l⟩

/-- `IsElem`: `element in self.list_elements`. -/
def IsElem [DecidableEq α] (w : WrappedList α) (element : α) : Bool :=
  w.list_elements.contains element

/-- `Clear`: `self.list_elements.clear()`. -/
def Clear (_ : WrappedList α) : WrappedList α :=
  ⟨[]⟩

/-- `Count`: `len(self.list_elements)`. -/
def Count (w : WrappedList α) : Nat :=
  w.list_elements.length

/-- `Any`: `self.Count() > 0`. -/
def Any (w : WrappedList α) : Bool :=
  decide (w.Count > 0)

/-- `Empty`: `self.Count() == 0`. -/
def Empty (w : WrappedList α) : Bool :=
  decide (w.Count = 0)

end WrappedList

/-- `RemoveSingle`: `self.list_elements.remove(element)` — remove the
first occurrence. -/
def WrappedList.RemoveSingle {α : Type} [DecidableEq α] (w : WrappedList α)
    (element : α) : WrappedList α :=
  ⟨w.list_elements.erase element⟩

/-- A transport/permission failure of the platform membership capability
(`PlatformError` in the spec; a pyrogram RPC error in the source). The
numeric code stands for the underlying cause. -/
structure PlatformError where
  code : Nat
deriving DecidableEq, Repr

/-- Embedding of the bulk eviction loop of
`RemoveNoPaymentCmd._ExecuteCommand` (`command/commands.py`, lines 499 to
512). The abstract kicker primitive `kick` (the external
`MembersKicker.KickAllWithExpiredPayment` capability) maps a platform
state to either a `PlatformError` or the pair of the members removed in
this pass and the successor state. `test_mode` is
`config.GetValue(BotConfigTypes.APP_TEST_MODE)`. The loop runs while not
finished: a pass returning no member finishes the loop; a pass returning
members accumulates them and finishes exactly when `test_mode` is set.
The `Nat` argument is fuel bounding the number of iterations: `none`
means the fuel ran out before the loop finished, `some (.error e)` means
a pass raised `PlatformError` and the loop aborted, and
`some (.ok (kicked, passes))` means the loop finished normally with the
accumulated members and the number of passes performed. -/
def evictLoop {M σ : Type} (kick : σ → Except PlatformError (List M × σ))
    (test_mode : Bool) :
    Nat → σ → List M → Nat → Option (Except PlatformError (List M × Nat))
  | 0, _, _, _ => none
  | fuel + 1, s, kicked_members, passes =>
    match kick s with
    | .error e => some (.error e)
    | .ok (curr_kicked_members, s2) =>
      if curr_kicked_members.isEmpty then
        some (.ok (kicked_members, passes + 1))
      else if test_mode then
        some (.ok (kicked_members ++ curr_kicked_members, passes + 1))
      else
        evictLoop kick test_mode fuel s2 (kicked_members ++ curr_kicked_members)
          (passes + 1)

/-- The whole bulk eviction operation (`EvictAllMatching` in the spec):
run `evictLoop` from the initial platform state with an empty accumulated
list and zero passes performed. -/
def EvictAllMatching {M σ : Type} (kick : σ → Except PlatformError (List M × σ))
    (test_mode : Bool) (fuel : Nat) (s : σ) :
    Option (Except PlatformError (List M × Nat)) :=
  evictLoop kick test_mode fuel s [] 0

/-- Success predicate for the bulk eviction loop on a concrete member
list: the loop finishes within the given fuel without a `PlatformError`
and the accumulated result has exactly as many members as the initial
list of matching members. -/
def evictAllRemoved {M : Type}
    (kick : List M → Except PlatformError (List M × List M))
    (fuel : Nat) (w : List M) : Bool :=
  match EvictAllMatching kick false fuel w with
  | some (.ok (res, _)) => res.length == w.length
  | _ => false

/-- A concrete eviction primitive removing the first `cap` remaining
matching members per pass (the platform cap on removals per call). -/
def kickTake {M : Type} (cap : Nat) (w : List M) :
    Except PlatformError (List M × List M) :=
  .ok (w.take cap, w.drop cap)

/-- A concrete primitive failing from state 2 on: states 0 and 1 remove
one member each, any later state raises a `PlatformError` with code 7. -/
def kickErrAt2 (s : Nat) : Except PlatformError (List Nat × Nat) :=
  if s < 2 then .ok ([s], s + 1) else .error ⟨7⟩

/-- Embedding of the reconciliation tick
`PaymentsPeriodicChecker.__PaymentsCheckTask`
(`payments_periodic_checker.py`, lines 60 to 77): for each configured
chat identifier, call `members_kicker.KickAllWithExpiredPayment` on that
chat and log the kicked count. The abstract kicker is a function from
the chat identifier to either a `PlatformError` or the list of kicked
members. The first component collects the per-chat log records (chat
identifier, kicked count) emitted before the tick ends; the second is
the error surfacing out of the tick, if any. The source has no
`try`/`except` around the kick, so an error ends the `for` loop: the
log records of the chats already processed remain, the failing chat and
every later chat produce none. -/
def PaymentsCheckTask {M : Type}
    (kickAllWithExpiredPayment : Int → Except PlatformError (List M)) :
    List Int → List (Int × Nat) × Option PlatformError
  | [] => ([], none)
  | chat_id :: rest =>
    match kickAllWithExpiredPayment chat_id with
    | .error e => ([], some e)
    | .ok kicked_members =>
      let r := PaymentsCheckTask kickAllWithExpiredPayment rest
      ((chat_id, kicked_members.length) :: r.1, r.2)

/-- A concrete kicker raising a `PlatformError` with code 1 exactly on
chat 2 and kicking one member (member 0) on every other chat. -/
def kickFailsOnChat2 (chat_id : Int) : Except PlatformError (List Nat) :=
  if chat_id = 2 then .error ⟨1⟩ else .ok [0]

/-- Error taxonomy of the payments check scheduler, named after the
exception classes that `command/commands.py` imports from
`telegram_payment_bot.payment.payments_check_scheduler`. -/
inductive PaymentsCheckJobError where
  | PaymentsCheckJobAlreadyRunningError
  | PaymentsCheckJobNotRunningError
  | PaymentsCheckJobInvalidPeriodError
  | PaymentsCheckJobChatAlreadyPresentError
  | PaymentsCheckJobChatNotPresentError
deriving DecidableEq, Repr

/-- Modelled from the spec: the payments check scheduler
(`PaymentsCheckScheduler`), whose module
`payment/payments_check_scheduler.py` is missing from the provided
sources — only its callers in `command/commands.py` and the imported
error names appear. The state is `{status: Stopped|Running,
period: duration|absent}` plus the chat registry, a `WrappedList` of
chat identifiers; `running` also stands for the periodic job being
scheduled, since the spec ties the two atomically. -/
structure PaymentsCheckScheduler where
  running : Bool
  period : Option Int
  chats : WrappedList Int
deriving DecidableEq, Repr

namespace PaymentsCheckScheduler

/-- Modelled from the spec: `Start(period)` fails with
`AlreadyRunningError` when the status is Running, fails with
`InvalidPeriodError` when the period is not strictly positive, and
otherwise schedules the periodic job and transitions to Running with
that period. An error result carries no successor state: the caller
keeps its state unchanged. -/
def Start (st : PaymentsCheckScheduler) (period : Int) :
    Except PaymentsCheckJobError PaymentsCheckScheduler :=
  if st.running then .error .PaymentsCheckJobAlreadyRunningError
  else if period ≤ 0 then .error .PaymentsCheckJobInvalidPeriodError
  else .ok { st with running := true, period := some period }

/-- Modelled from the spec: `Stop()` fails with `NotRunningError` when
the status is Stopped; otherwise it cancels the periodic timer and
transitions to Stopped with the period absent, atomically. -/
def Stop (st : PaymentsCheckScheduler) :
    Except PaymentsCheckJobError PaymentsCheckScheduler :=
  if st.running then .ok { st with running := false, period := none }
  else .error .PaymentsCheckJobNotRunningError

/-- Modelled from the spec: `AddChat(chat)` fails with
`ChatAlreadyPresentError` when the chat is already present, with no
mutation; otherwise it appends the chat to the registry through the
source `WrappedList.AddSingle`. -/
def AddChat (st : PaymentsCheckScheduler) (c : Int) :
    Except PaymentsCheckJobError PaymentsCheckScheduler :=
  if st.chats.IsElem c then .error .PaymentsCheckJobChatAlreadyPresentError
  else .ok { st with chats := st.chats.AddSingle c }

/-- Modelled from the spec: `RemoveChat(chat)` fails with
`ChatNotPresentError` when the chat is absent; otherwise it removes the
chat through the source `WrappedList.RemoveSingle`. -/
def RemoveChat (st : PaymentsCheckScheduler) (c : Int) :
    Except PaymentsCheckJobError PaymentsCheckScheduler :=
  if st.chats.IsElem c then .ok { st with chats := st.chats.RemoveSingle c }
  else .error .PaymentsCheckJobChatNotPresentError

/-- Modelled from the spec: `RemoveAllChats()` clears the registry
unconditionally and never fails. -/
def RemoveAllChats (st : PaymentsCheckScheduler) : PaymentsCheckScheduler :=
  { st with chats := st.chats.Clear }

/-- Modelled from the spec: `IsRunning()`, a pure observer. -/
def IsRunning (st : PaymentsCheckScheduler) : Bool :=
  st.running

/-- Modelled from the spec: `GetPeriod()`, a pure observer. -/
def GetPeriod (st : PaymentsCheckScheduler) : Option Int :=
  st.period

/-- Modelled from the spec: `GetChats()`, a pure observer. -/
def GetChats (st : PaymentsCheckScheduler) : WrappedList Int :=
  st.chats

end PaymentsCheckScheduler

/-- Modelled from the spec: the events the scheduler can see — each
control operation offered to the command handlers plus a firing of the
platform timer. A timer firing begins a reconciliation tick only while
the job is scheduled (status Running). -/
inductive SchedulerEvent where
  | start (p : Int)
  | stop
  | addChat (c : Int)
  | removeChat (c : Int)
  | removeAllChats
  | timerFire
deriving DecidableEq, Repr

/-- Modelled from the spec: apply one event to the scheduler state,
returning the successor state and how many reconciliation ticks began
(1 when the timer fires while Running, 0 otherwise). A failing control
operation leaves the state unchanged. -/
def applyEvent (st : PaymentsCheckScheduler) :
    SchedulerEvent → PaymentsCheckScheduler × Nat
  | .start p =>
    match st.Start p with
    | .ok st2 => (st2, 0)
    | .error _ => (st, 0)
  | .stop =>
    match st.Stop with
    | .ok st2 => (st2, 0)
    | .error _ => (st, 0)
  | .addChat c =>
    match st.AddChat c with
    | .ok st2 => (st2, 0)
    | .error _ => (st, 0)
  | .removeChat c =>
    match st.RemoveChat c with
    | .ok st2 => (st2, 0)
    | .error _ => (st, 0)
  | .removeAllChats => (st.RemoveAllChats, 0)
  | .timerFire => if st.running then (st, 1) else (st, 0)

/-- Modelled from the spec: the number of reconciliation ticks that
begin along a sequence of events from a given scheduler state. -/
def ticksBegun (st : PaymentsCheckScheduler) : List SchedulerEvent → Nat
  | [] => 0
  | e :: es => (applyEvent st e).2 + ticksBegun (applyEvent st e).1 es

/-- C9: for every `WrappedList` `w` and every `WrappedList` argument `e`,
`w.AddMultiple(e)` produces exactly the same final element list as
`w.AddMultiple(e.GetList())`: the two `isinstance` branches of
`AddMultiple` are equivalent. -/
theorem AddMultiple_wrapped_eq_plain {α : Type} (w e : WrappedList α) :
    w.AddMultiple (.wrapped e) = w.AddMultiple (.plain e.GetList) := by
  rfl

/-- C10: for every `WrappedList` state, `Any()` is true iff `Count() > 0`,
`Empty()` is true iff `Count() == 0`, and `Any()` equals the negation of
`Empty()`. All three are embedded as pure functions of the state, with no
side effects. -/
theorem Any_Empty_Count {α : Type} (w : WrappedList α) :
    (w.Any = true ↔ w.Count > 0) ∧ (w.Empty = true ↔ w.Count = 0) ∧
      w.Any = !w.Empty := by
  refine ⟨by simp [WrappedList.Any], by simp [WrappedList.Empty], ?_⟩
  simp only [WrappedList.Any, WrappedList.Empty]
  rcases Nat.eq_zero_or_pos w.Count with h | h
  · simp [h]
  · simp [h, Nat.pos_iff_ne_zero.mp h]

/-- Completeness lemma for the loop with a failure-free primitive: when
every pass conserves members (removed plus remaining equals the previous
remaining) and removes at least one member from a non-empty remaining
list, fuel exceeding the number of remaining members lets the loop finish
normally, and the final accumulation holds the earlier accumulation plus
all remaining members. -/
theorem evictLoop_complete {M : Type}
    (kick : List M → Except PlatformError (List M × List M))
    (hok : ∀ w, ∃ r w2, kick w = .ok (r, w2))
    (hcons : ∀ w r w2, kick w = .ok (r, w2) → r.length + w2.length = w.length)
    (hprog : ∀ w r w2, kick w = .ok (r, w2) → w ≠ [] → r ≠ []) :
    ∀ fuel (w kicked : List M) (passes : Nat), w.length < fuel →
      ∃ res p, evictLoop kick false fuel w kicked passes = some (.ok (res, p)) ∧
        res.length = kicked.length + w.length := by
  intro fuel
  induction fuel with
  | zero => intro w kicked passes h; exact absurd h (Nat.not_lt_zero _)
  | succ n ih =>
    intro w kicked passes h
    obtain ⟨r, w2, hk⟩ := hok w
    by_cases hre : r = []
    · subst hre
      have hw : w = [] := by
        by_contra hw
        exact (hprog w [] w2 hk hw) rfl
      refine ⟨kicked, passes + 1, ?_, ?_⟩
      · simp [evictLoop, hk]
      · simp [hw]
    · have hlen := hcons w r w2 hk
      have hrpos : 0 < r.length := List.length_pos.mpr hre
      have h2 : w2.length < n := by omega
      obtain ⟨res, p, heq, hres⟩ := ih w2 (kicked ++ r) (passes + 1) h2
      have hempty : r.isEmpty = false := by
        cases r with
        | nil => exact absurd rfl hre
        | cons a t => rfl
      refine ⟨res, p, ?_, ?_⟩
      · simp only [evictLoop, hk, hempty]
        exact heq
      · rw [hres, List.length_append]
        omega

/-- C1: for a primitive that removes matching members in passes of at
most `N` and, on a non-simulated run, strictly decreases the remaining
matching members until none remain (at least one member removed per pass
while any remains, each removed member leaving the remaining set), the
bulk eviction loop terminates within `total + 1` passes worth of fuel
and the accumulated result has exactly as many members as the total
number of matching members, for every total count, in particular 0, `N`,
`N + 1` and `2N`. -/
theorem evict_terminates_total (N : Nat) {M : Type}
    (kick : List M → Except PlatformError (List M × List M))
    (hok : ∀ w, ∃ r w2, kick w = .ok (r, w2))
    (hcap : ∀ w r w2, kick w = .ok (r, w2) → r.length ≤ N)
    (hcons : ∀ w r w2, kick w = .ok (r, w2) → r.length + w2.length = w.length)
    (hprog : ∀ w r w2, kick w = .ok (r, w2) → w ≠ [] → r ≠ [])
    (w : List M) :
    evictAllRemoved kick (w.length + 1) w = true := by
  obtain ⟨res, p, heq, hres⟩ :=
    evictLoop_complete kick hok hcons hprog (w.length + 1) w [] 0
      (Nat.lt_succ_self _)
  unfold evictAllRemoved EvictAllMatching
  rw [heq]
  simp [hres]

/-- The take/drop primitive always succeeds. -/
theorem kickTake_ok {M : Type} (cap : Nat) :
    ∀ w : List M, ∃ r w2, kickTake cap w = .ok (r, w2) :=
  fun _ => ⟨_, _, rfl⟩

/-- The take/drop primitive removes at most `cap` members per pass. -/
theorem kickTake_cap {M : Type} (cap : Nat) :
    ∀ w r w2 : List M, kickTake cap w = .ok (r, w2) → r.length ≤ cap := by
  intro w r w2 h
  simp only [kickTake, Except.ok.injEq, Prod.mk.injEq] at h
  obtain ⟨h1, h2⟩ := h
  subst h1
  simp [List.length_take]

/-- The take/drop primitive conserves members across a pass. -/
theorem kickTake_conserves {M : Type} (cap : Nat) :
    ∀ w r w2 : List M, kickTake cap w = .ok (r, w2) →
      r.length + w2.length = w.length := by
  intro w r w2 h
  simp only [kickTake, Except.ok.injEq, Prod.mk.injEq] at h
  obtain ⟨h1, h2⟩ := h
  subst h1
  subst h2
  simp [List.length_take, List.length_drop]
  omega

/-- The take/drop primitive with a positive cap removes at least one
member from a non-empty remaining list. -/
theorem kickTake_progress {M : Type} (cap : Nat) (hc : 0 < cap) :
    ∀ w r w2 : List M, kickTake cap w = .ok (r, w2) → w ≠ [] → r ≠ [] := by
  intro w r w2 h hw
  simp only [kickTake, Except.ok.injEq, Prod.mk.injEq] at h
  obtain ⟨h1, h2⟩ := h
  subst h1
  cases w with
  | nil => exact absurd rfl hw
  | cons a t =>
    cases cap with
    | zero => exact absurd hc (by omega)
    | succ m => simp

/-- Witness for the bulk eviction termination theorem: the cap 2
take/drop primitive on concrete member lists of sizes 0, `N` = 2,
`N` + 1 = 3 and 2`N` = 4. -/
theorem evict_terminates_total_witness :
    evictAllRemoved (kickTake 2) (([] : List Nat).length + 1)
      ([] : List Nat) = true ∧
    evictAllRemoved (kickTake 2) ([10, 11].length + 1) [10, 11] = true ∧
    evictAllRemoved (kickTake 2) ([10, 11, 12].length + 1)
      [10, 11, 12] = true ∧
    evictAllRemoved (kickTake 2) ([10, 11, 12, 13].length + 1)
      [10, 11, 12, 13] = true :=
  ⟨evict_terminates_total 2 (kickTake 2) (kickTake_ok 2) (kickTake_cap 2)
      (kickTake_conserves 2) (kickTake_progress 2 (by decide)) [],
   evict_terminates_total 2 (kickTake 2) (kickTake_ok 2) (kickTake_cap 2)
      (kickTake_conserves 2) (kickTake_progress 2 (by decide)) [10, 11],
   evict_terminates_total 2 (kickTake 2) (kickTake_ok 2) (kickTake_cap 2)
      (kickTake_conserves 2) (kickTake_progress 2 (by decide)) [10, 11, 12],
   evict_terminates_total 2 (kickTake 2) (kickTake_ok 2) (kickTake_cap 2)
      (kickTake_conserves 2) (kickTake_progress 2 (by decide))
      [10, 11, 12, 13]⟩

/-- C2: with simulation mode (test mode) enabled and a primitive that
always reports the same non-empty candidate set without mutating the
state, the loop finishes after exactly one pass with exactly that single
pass output, for any fuel of at least one iteration. -/
theorem simulation_mode_one_pass {M σ : Type} (cand : List M) (s0 : σ)
    (fuel : Nat) (hf : 1 ≤ fuel) (hc : cand ≠ []) :
    EvictAllMatching (fun s => .ok (cand, s)) true fuel s0 =
      some (.ok (cand, 1)) := by
  obtain ⟨n, rfl⟩ : ∃ n, fuel = n + 1 := ⟨fuel - 1, by omega⟩
  have hempty : cand.isEmpty = false := by
    cases cand with
    | nil => exact absurd rfl hc
    | cons a t => rfl
  simp [EvictAllMatching, evictLoop, hempty]

/-- Witness for the simulation mode theorem: a constant primitive always
reporting member 7 on a `Nat` state, with fuel 3. -/
theorem simulation_mode_one_pass_witness :
    EvictAllMatching (fun s => .ok ([7], s)) true 3 (0 : Nat) =
      some (.ok ([7], 1)) :=
  simulation_mode_one_pass [7] 0 3 (by decide) (by decide)

/-- C4: with cap 2 and five matching members (a to e numbered 1 to 5),
successive passes remove the first two, the next two, the last one and
then nobody: the loop, not in simulation mode, performs 4 passes and
returns the five members in order. -/
theorem evict_five_members_cap_two :
    EvictAllMatching (kickTake 2) false 6 [1, 2, 3, 4, 5] =
      some (.ok ([1, 2, 3, 4, 5], 4)) := by
  rfl

/-- C5: when a pass raises `PlatformError`, the loop aborts at once with
that error: the result is `some (.error e)` whatever was accumulated by
the earlier passes and however much fuel remains, so the caller sees a
failure carrying no member list — the accumulation built before the
failing pass is discarded and never reported as a success. -/
theorem evict_error_aborts {M σ : Type}
    (kick : σ → Except PlatformError (List M × σ)) (test_mode : Bool)
    (s : σ) (e : PlatformError) (h : kick s = .error e) :
    ∀ fuel (kicked : List M) (passes : Nat),
      evictLoop kick test_mode (fuel + 1) s kicked passes =
        some (.error e) := by
  intro fuel kicked passes
  simp [evictLoop, h]

/-- Witness for the error abort theorem: the loop reached state 2 having
accumulated members 0 and 1 over two passes; the third pass raises, the
loop returns exactly the error and the accumulated members are gone. -/
theorem evict_error_aborts_witness :
    evictLoop kickErrAt2 false (3 + 1) 2 [0, 1] 2 = some (.error ⟨7⟩) :=
  evict_error_aborts kickErrAt2 false 2 ⟨7⟩ (by rfl) 3 [0, 1] 2

/-- C3 counterexample: with three chats 1, 2, 3 where the eviction of
chat 2 raises `PlatformError`, the tick logs a record for chat 1 only
and then aborts with the error: no eviction result or log record is
produced for chat 3, contrary to the claim that the failure does not
prevent the processing of subsequent chats. -/
theorem tick_not_isolated_counterexample :
    PaymentsCheckTask kickFailsOnChat2 [1, 2, 3] = ([(1, 1)], some ⟨1⟩) ∧
    ((PaymentsCheckTask kickFailsOnChat2 [1, 2, 3]).1.any
      fun rec => rec.1 == 3) = false := by
  constructor
  · rfl
  · rfl

/-- C3 as amended: a `PlatformError` raised while evicting the members
of one chat is not caught inside the tick; the chats before it in the
registry order are still evicted and logged, but the error aborts the
`for` loop, so the failing chat and every subsequent chat of the same
tick are not processed and the error propagates out of the tick. -/
theorem tick_error_aborts_rest {M : Type}
    (kick : Int → Except PlatformError (List M))
    (pre post : List Int) (c : Int) (e : PlatformError)
    (hpre : ∀ x ∈ pre, ∃ l, kick x = .ok l)
    (hc : kick c = .error e) :
    (PaymentsCheckTask kick (pre ++ c :: post)).2 = some e ∧
    (PaymentsCheckTask kick (pre ++ c :: post)).1.map Prod.fst = pre := by
  induction pre with
  | nil =>
    simp [PaymentsCheckTask, hc]
  | cons a t ih =>
    obtain ⟨l, hl⟩ := hpre a (List.mem_cons_self a t)
    have ht : ∀ x ∈ t, ∃ l, kick x = .ok l :=
      fun x hx => hpre x (List.mem_cons_of_mem a hx)
    obtain ⟨ih1, ih2⟩ := ih ht
    simp only [List.cons_append, PaymentsCheckTask, hl]
    refine ⟨ih1, ?_⟩
    simp [ih2]

/-- Witness for the amended tick theorem at the concrete run of the
counterexample: chats 1, 2, 3 with the failure on chat 2. -/
theorem tick_error_aborts_rest_witness :
    (PaymentsCheckTask kickFailsOnChat2 ([1] ++ 2 :: [3])).2 = some ⟨1⟩ ∧
    (PaymentsCheckTask kickFailsOnChat2 ([1] ++ 2 :: [3])).1.map
      Prod.fst = [1] :=
  tick_error_aborts_rest kickFailsOnChat2 [1] [3] 2 ⟨1⟩
    (by
      intro x hx
      rw [List.mem_singleton] at hx
      subst hx
      exact ⟨[0], rfl⟩)
    (by rfl)

/-- A successful `AddChat` leaves the running status unchanged. -/
theorem AddChat_running (st : PaymentsCheckScheduler) (c : Int)
    (st2 : PaymentsCheckScheduler) (h : st.AddChat c = .ok st2) :
    st2.running = st.running := by
  unfold PaymentsCheckScheduler.AddChat at h
  split at h
  · simp at h
  · simp only [Except.ok.injEq] at h
    rw [← h]

/-- A successful `RemoveChat` leaves the running status unchanged. -/
theorem RemoveChat_running (st : PaymentsCheckScheduler) (c : Int)
    (st2 : PaymentsCheckScheduler) (h : st.RemoveChat c = .ok st2) :
    st2.running = st.running := by
  unfold PaymentsCheckScheduler.RemoveChat at h
  split at h
  · simp only [Except.ok.injEq] at h
    rw [← h]
  · simp at h

/-- From a Stopped state, no sequence of events avoiding `Start` ever
begins a reconciliation tick. -/
theorem ticksBegun_stopped :
    ∀ (es : List SchedulerEvent) (st : PaymentsCheckScheduler),
      st.running = false → (∀ p, SchedulerEvent.start p ∉ es) →
      ticksBegun st es = 0 := by
  intro es
  induction es with
  | nil => intro st hst hes; rfl
  | cons e t ih =>
    intro st hst hes
    have hes_t : ∀ p, SchedulerEvent.start p ∉ t :=
      fun p hp => hes p (List.mem_cons_of_mem e hp)
    cases e with
    | start p => exact absurd (List.mem_cons_self _ _) (hes p)
    | stop =>
      have hstop : st.Stop = .error .PaymentsCheckJobNotRunningError := by
        simp [PaymentsCheckScheduler.Stop, hst]
      simp only [ticksBegun, applyEvent, hstop]
      simpa using ih st hst hes_t
    | addChat c =>
      cases hac : st.AddChat c with
      | error err =>
        simp only [ticksBegun, applyEvent, hac]
        simpa using ih st hst hes_t
      | ok st2 =>
        have hr : st2.running = false := (AddChat_running st c st2 hac).trans hst
        simp only [ticksBegun, applyEvent, hac]
        simpa using ih st2 hr hes_t
    | removeChat c =>
      cases hrc : st.RemoveChat c with
      | error err =>
        simp only [ticksBegun, applyEvent, hrc]
        simpa using ih st hst hes_t
      | ok st2 =>
        have hr : st2.running = false := (RemoveChat_running st c st2 hrc).trans hst
        simp only [ticksBegun, applyEvent, hrc]
        simpa using ih st2 hr hes_t
    | removeAllChats =>
      simp only [ticksBegun, applyEvent]
      simpa using ih st.RemoveAllChats hst hes_t
    | timerFire =>
      simp only [ticksBegun, applyEvent, hst]
      simpa using ih st hst hes_t

/-- C6: for every non-positive period (zero or negative), `Start` from a
Stopped scheduler fails with `InvalidPeriodError` and returns no
successor state, so the caller keeps the Stopped state and no periodic
job is scheduled: an invalid period is never silently ignored. -/
theorem Start_nonpositive_invalid (st : PaymentsCheckScheduler) (p : Int)
    (hstopped : st.running = false) (hp : p ≤ 0) :
    st.Start p = .error .PaymentsCheckJobInvalidPeriodError ∧
      ∀ st2, st.Start p ≠ .ok st2 := by
  have h : st.Start p = .error .PaymentsCheckJobInvalidPeriodError := by
    simp [PaymentsCheckScheduler.Start, hstopped, hp]
  exact ⟨h, fun st2 hok => by rw [h] at hok; exact Except.noConfusion hok⟩

/-- Witness for the invalid period theorem: a Stopped scheduler with an
empty registry, at the periods 0 and minus 3. -/
theorem Start_nonpositive_invalid_witness :
    PaymentsCheckScheduler.Start ⟨false, none, ⟨[]⟩⟩ 0 =
      .error .PaymentsCheckJobInvalidPeriodError ∧
    PaymentsCheckScheduler.Start ⟨false, none, ⟨[]⟩⟩ (-3) =
      .error .PaymentsCheckJobInvalidPeriodError :=
  ⟨(Start_nonpositive_invalid ⟨false, none, ⟨[]⟩⟩ 0 rfl (by decide)).1,
   (Start_nonpositive_invalid ⟨false, none, ⟨[]⟩⟩ (-3) rfl (by decide)).1⟩

/-- C7: `Stop` on a Stopped scheduler fails with `NotRunningError` and
returns no successor state; `Stop` on a Running scheduler transitions to
Stopped with the period absent, and from that state no sequence of
events avoiding `Start` ever begins a reconciliation tick — the timer is
cancelled atomically with the transition. -/
theorem Stop_spec (st : PaymentsCheckScheduler) :
    (st.running = false →
      st.Stop = .error .PaymentsCheckJobNotRunningError) ∧
    (st.running = true →
      st.Stop = .ok { st with running := false, period := none } ∧
      ∀ es : List SchedulerEvent, (∀ p, SchedulerEvent.start p ∉ es) →
        ticksBegun { st with running := false, period := none } es = 0) := by
  refine ⟨fun h => ?_, fun h => ⟨?_, fun es hes => ?_⟩⟩
  · simp [PaymentsCheckScheduler.Stop, h]
  · simp [PaymentsCheckScheduler.Stop, h]
  · exact ticksBegun_stopped es _ rfl hes

/-- Witness for the stop theorem: a Stopped scheduler rejecting `Stop`,
and a Running scheduler with period 24 over chat 5 stopping and then
seeing timer firings and control events without a tick beginning. -/
theorem Stop_spec_witness :
    PaymentsCheckScheduler.Stop ⟨false, none, ⟨[]⟩⟩ =
      .error .PaymentsCheckJobNotRunningError ∧
    PaymentsCheckScheduler.Stop ⟨true, some 24, ⟨[5]⟩⟩ =
      .ok ⟨false, none, ⟨[5]⟩⟩ ∧
    ticksBegun ⟨false, none, ⟨[5]⟩⟩
      [.timerFire, .stop, .timerFire, .addChat 9, .timerFire] = 0 :=
  ⟨(Stop_spec ⟨false, none, ⟨[]⟩⟩).1 rfl,
   ((Stop_spec ⟨true, some 24, ⟨[5]⟩⟩).2 rfl).1,
   ((Stop_spec ⟨true, some 24, ⟨[5]⟩⟩).2 rfl).2
     [.timerFire, .stop, .timerFire, .addChat 9, .timerFire]
     (by intro p; simp)⟩

/-- C8: a successful `AddChat` on a duplicate-free registry keeps the
registry duplicate-free, the chat is now present with exactly one
occurrence, and a second `AddChat` of the same chat fails with
`ChatAlreadyPresentError` and returns no successor state, leaving the
registry with that chat exactly once. -/
theorem AddChat_no_duplicates (st : PaymentsCheckScheduler) (c : Int)
    (st2 : PaymentsCheckScheduler)
    (hnodup : st.chats.list_elements.Nodup)
    (hok : st.AddChat c = .ok st2) :
    st2.chats.list_elements.Nodup ∧
    st2.chats.IsElem c = true ∧
    st2.chats.list_elements.count c = 1 ∧
    st2.AddChat c = .error .PaymentsCheckJobChatAlreadyPresentError := by
  unfold PaymentsCheckScheduler.AddChat at hok
  by_cases hmem : st.chats.IsElem c = true
  · rw [if_pos hmem] at hok
    exact absurd hok (by simp)
  · rw [if_neg hmem] at hok
    simp only [Except.ok.injEq] at hok
    have hc : c ∉ st.chats.list_elements := by
      simp only [WrappedList.IsElem] at hmem
      simpa using hmem
    have hlist : st2.chats.list_elements = st.chats.list_elements ++ [c] := by
      rw [← hok]
      rfl
    have hnodup2 : st2.chats.list_elements.Nodup := by
      rw [hlist]
      simp [List.nodup_append, hnodup, hc]
    have hiselem : st2.chats.IsElem c = true := by
      simp [WrappedList.IsElem, hlist]
    refine ⟨hnodup2, hiselem, ?_, ?_⟩
    · rw [hlist, List.count_append]
      simp [List.count_eq_zero.mpr hc]
    · unfold PaymentsCheckScheduler.AddChat
      rw [if_pos hiselem]

/-- Witness for the duplicate chat theorem: adding chat 2 to the
registry holding chat 1 succeeds; the registry is then duplicate-free
with chat 2 exactly once and a second add of chat 2 fails. -/
theorem AddChat_no_duplicates_witness :
    (PaymentsCheckScheduler.mk false none
      ⟨[1, 2]⟩).chats.list_elements.Nodup ∧
    (PaymentsCheckScheduler.mk false none ⟨[1, 2]⟩).chats.IsElem 2 = true ∧
    (PaymentsCheckScheduler.mk false none
      ⟨[1, 2]⟩).chats.list_elements.count 2 = 1 ∧
    PaymentsCheckScheduler.AddChat ⟨false, none, ⟨[1, 2]⟩⟩ 2 =
      .error .PaymentsCheckJobChatAlreadyPresentError :=
  AddChat_no_duplicates ⟨false, none, ⟨[1]⟩⟩ 2 ⟨false, none, ⟨[1, 2]⟩⟩
    (by decide) (by rfl)
